import Mathlib

/-!
Verification development for the FirstLine-AI outbound call server
(`outbound/outbound.js`).

The file shallowly embeds the parts of the server that the specification's
claims concern: the scenario-to-agent selection (`getAgentIdForScenario`),
the `POST /outbound-call` route handler, the per-call websocket session
(Twilio media-stream handler plus the ElevenLabs connection handlers, modelled
as one step function over a session state), and the post-call grading pipeline
(`analyzeConversation`).

Modelling conventions:
  * JavaScript strings are Lean `String`s; a possibly-`undefined` value is an
    `Option`.  JS truthiness of strings/numbers is made explicit
    (`strTruthy`, `intTruthy`).
  * JSON values exchanged with external services are modelled by `JsonVal`.
    `JSON.parse` of an upstream response is abstracted into an
    `Option JsonVal` argument (`none` = the text was not valid JSON), since
    the claims quantify over parse outcomes, not over raw bytes.
  * Network sends are recorded as `Action`s; the session handlers become a
    pure step function `step : SessionState → SessionEvent → SessionState × List Action`.
  * `console.log`/`console.error` calls, the local `fs.writeFile` of the
    analysis file and the `/analysis/:callSid` debug route are not modelled:
    no claim mentions them.
-/

namespace FirstLine

/-- JS truthiness of a possibly-undefined string: `undefined` and `""` are
falsy, every other string is truthy. -/
def strTruthy : Option String → Bool
  | none => false
  | some s => !(s = "")

/-- JS `x || d` for a possibly-undefined string `x`: yields `d` when `x` is
`undefined` or `""`. -/
def strOr (o : Option String) (d : String) : String :=
  match o with
  | some s => if s = "" then d else s
  | none => d

/-- JS truthiness of a possibly-NaN/undefined number (`none` = NaN or
undefined): `0`, NaN and undefined are falsy. -/
def intTruthy : Option Int → Bool
  | none => false
  | some n => !(n = 0)

/-- ASCII whitespace, the subset of JS `trim`'s whitespace class the model
covers. -/
def isJsWhitespace (c : Char) : Bool :=
  c = ' ' || c = '\t' || c = '\n' || c = '\r'

/-- JS `s.trim()` (restricted to ASCII whitespace). -/
def jsTrim (s : String) : String :=
  ⟨((s.data.dropWhile isJsWhitespace).reverse.dropWhile isJsWhitespace).reverse⟩

/-- Value of a nonempty run of decimal digits, `none` on a non-digit. -/
def decDigitsAux : List Char → Nat → Option Nat
  | [], acc => some acc
  | c :: cs, acc =>
    if c.isDigit then decDigitsAux cs (acc * 10 + (c.toNat - 48)) else none

/-- Value of a nonempty all-digit character list, else `none`. -/
def decDigits? : List Char → Option Nat
  | [] => none
  | c :: cs => decDigitsAux (c :: cs) 0

/-- Model of JS `Number(s)` for a string argument, returning `none` for NaN.
`Number` trims whitespace and maps the empty string to `0`; we model an
optional sign followed by decimal digits (the scenario identifiers the system
uses are `"1"`, `"2"`, `"3"`); fractional, exponent and radix-prefixed forms
are outside the model's scope. -/
def jsStringToNumber (s : String) : Option Int :=
  match (jsTrim s).data with
  | [] => some 0
  | '-' :: rest => (decDigits? rest).map (fun n => -(n : Int))
  | '+' :: rest => (decDigits? rest).map (fun n => (n : Int))
  | cs => (decDigits? cs).map (fun n => (n : Int))

/-- Whether `needle` is a leading segment of `haystack`. -/
def startsWithChars : List Char → List Char → Bool
  | [], _ => true
  | _ :: _, [] => false
  | c :: cs, d :: ds => c = d && startsWithChars cs ds

/-- Whether `needle` occurs contiguously somewhere in `haystack`. -/
def hasInfixChars (needle haystack : List Char) : Bool :=
  match haystack with
  | [] => needle.isEmpty
  | _ :: rest => startsWithChars needle haystack || hasInfixChars needle rest

/-- JS `haystack.includes(needle)`. -/
def strIncludes (haystack needle : String) : Bool :=
  hasInfixChars needle.toList haystack.toList

/-- JSON values, as they appear on the wire after `JSON.stringify`. -/
inductive JsonVal where
  | null
  | bool (b : Bool)
  | num (n : Int)
  | str (s : String)
  | arr (elts : List JsonVal)
  | obj (fields : List (String × JsonVal))

/-- Look a key up in a (top-level) JSON object; `none` on non-objects. -/
def lookupField (j : JsonVal) (k : String) : Option JsonVal :=
  match j with
  | .obj fields => fields.lookup k
  | _ => none

/-- Replace the value of key `k` in an association list, keeping its
position, or append it at the end when absent — the behaviour of a JS
property assignment on a plain object. -/
def setFieldIn (fields : List (String × JsonVal)) (k : String) (v : JsonVal) :
    List (String × JsonVal) :=
  match fields with
  | [] => [(k, v)]
  | (k₀, v₀) :: rest =>
    if k₀ = k then (k, v) :: rest else (k₀, v₀) :: setFieldIn rest k v

/-- JS property assignment `j[k] = v`, as observed on the serialized value.
On a plain object the field is set/overwritten.  On anything else the
serialized value is unchanged: primitives and `null` are filtered out by the
source's `typeof analysisData === 'object' && analysisData` guard, and a
named property assigned to an array is discarded by `JSON.stringify`. -/
def setField (j : JsonVal) (k : String) (v : JsonVal) : JsonVal :=
  match j with
  | .obj fields => .obj (setFieldIn fields k v)
  | _ => j

/-- `typeof x === 'object' && x` for a JSON value: objects and arrays pass,
`null` is typeof object but falsy, primitives fail the typeof test. -/
def jsObjectTruthy : JsonVal → Bool
  | .obj _ => true
  | .arr _ => true
  | _ => false

/-!  Agent Selector (`getAgentIdForScenario`, outbound.js lines 69–74). -/

/-- `getAgentIdForScenario(scenarioId)`; the environment (`process.env`) and
the default `ELEVENLABS_AGENT_ID` are passed explicitly.  The call sites pass
a string or `''`, so the argument is modelled as `Option String`.
Source:
  const id = String(scenarioId || '').trim();
  if (!id) return ELEVENLABS_AGENT_ID;
  const perScenario = process.env of ELEVENLABS_AGENT_ID_ followed by id;
  return perScenario && perScenario.trim() ? perScenario.trim() : ELEVENLABS_AGENT_ID;
(`perScenario` falsy means the key is unset or `""`, which `trim` also maps
to `""`, so the two falsy tests collapse to one test on the trimmed value.) -/
def getAgentIdForScenario (env : String → Option String) (defaultAgentId : String)
    (scenarioId : Option String) : String :=
  let id := jsTrim (strOr scenarioId "")
  if id = "" then defaultAgentId
  else
    match env ("ELEVENLABS_AGENT_ID_" ++ id) with
    | some perScenario =>
      if jsTrim perScenario = "" then defaultAgentId else jsTrim perScenario
    | none => defaultAgentId

/-- The effective per-scenario mapping a configuration provides for the
(trimmed, nonempty) identifier `id`: the trimmed value of the
`ELEVENLABS_AGENT_ID_` environment key, or `none` when the key is unset or
blank. -/
def configuredAgentFor (env : String → Option String) (id : String) : Option String :=
  match env ("ELEVENLABS_AGENT_ID_" ++ id) with
  | some v => if jsTrim v = "" then none else some (jsTrim v)
  | none => none

/-!  `POST /outbound-call` route handler (outbound.js lines 103–144). -/

/-- Request body of `POST /outbound-call`.  All fields may be absent. -/
structure OutboundCallRequest where
  number : Option String
  prompt : Option String
  first_message : Option String
  scenarioId : Option String
deriving DecidableEq

/-- Outcome of `twilioClient.calls.create` — the call resource with its sid,
or a thrown error whose `message` may be absent. -/
inductive TwilioCreate where
  | created (sid : String)
  | failed (message : Option String)
deriving DecidableEq

/-- Result of one request to the route: HTTP status, JSON body, and whether
the external telephony call was attempted. -/
structure HandlerResult where
  status : Nat
  body : JsonVal
  externalCallAttempted : Bool

/-- The `POST /outbound-call` handler.  The `twilio` argument is the outcome
`twilioClient.calls.create` would produce if invoked; the handler consults it
only after the `number` validation passes (`externalCallAttempted` records
whether it was invoked).  Fastify's `reply.send` without a `code` call
answers 200. -/
def outboundCallHandler (req : OutboundCallRequest) (twilio : TwilioCreate) :
    HandlerResult :=
  if !(strTruthy req.number) then
    { status := 400
      body := .obj [("error", .str "Phone number is required")]
      externalCallAttempted := false }
  else
    match twilio with
    | .created sid =>
      { status := 200
        body := .obj [("success", .bool true), ("message", .str "Call initiated"),
                      ("callSid", .str sid)]
        externalCallAttempted := true }
    | .failed message =>
      { status := 500
        body := .obj [("success", .bool false), ("error", .str "Failed to initiate call"),
                      ("detail", .str (strOr message "Unknown error"))]
        externalCallAttempted := true }

/-!  Per-call websocket session (`/outbound-media-stream`, outbound.js
lines 170–391).  The per-connection closure variables become a
`SessionState`; the Twilio `ws.on('message')` handler, the ElevenLabs
`on('open')`/`on('message')`/`on('close')` handlers and the Twilio
`ws.on('close')` handler become the cases of one step function. -/

/-- Roles used in `conversationHistory` pushes.  The spec calls `system`
"narration-context", `assistant` "ai-caller" and `user` "trainee". -/
inductive Role where
  | system
  | assistant
  | user
deriving DecidableEq

/-- One entry of `conversationHistory`. -/
structure Turn where
  role : Role
  content : String
deriving DecidableEq

/-- `msg.start.customParameters` — the Twilio stream parameters carrying the
scenario context.  Each field may be absent. -/
structure CustomParameters where
  prompt : Option String
  first_message : Option String
  scenarioId : Option String
deriving DecidableEq

/-- `readyState` of the ElevenLabs websocket, coarsened to the three phases
the source distinguishes (CLOSING is not observed separately from CLOSED). -/
inductive WsState where
  | connecting
  | opened
  | closed
deriving DecidableEq

/-- The mutable per-connection variables of the media-stream closure
(lines 174–179).  `elevenLabsWs = none` models the variable still being
`null`; `callStartTime` is not modelled (no claim mentions it). -/
structure SessionState where
  streamSid : Option String
  callSid : Option String
  customParameters : Option CustomParameters
  conversationHistory : List Turn
  elevenLabsWs : Option WsState
deriving DecidableEq

/-- The state of the closure when the Twilio connection is accepted. -/
def initialSession : SessionState :=
  { streamSid := none, callSid := none, customParameters := none
    conversationHistory := [], elevenLabsWs := none }

/-- A parsed Twilio media-stream message, by its `event` tag. -/
inductive TwilioEvent where
  | start (streamSid callSid : String) (customParameters : Option CustomParameters)
  | media (payload : String)
  | stop
  | other (event : String)
deriving DecidableEq

/-- A parsed ElevenLabs message, by its `type` tag.  Payload fields that the
handler reads through optional chaining are `Option`s. -/
inductive ElevenLabsEvent where
  | conversationInitiationMetadata
  | audio (chunk : Option String) (audioBase64 : Option String)
  | interruption
  | ping (eventId : Option String)
  | agentResponse (text : Option String)
  | userTranscript (text : Option String)
  | other (msgType : String)
deriving DecidableEq

/-- One event delivered to the session's handlers.  For the two message
handlers the payload is the outcome of `JSON.parse` (`none` = the raw text was
not valid JSON, making the handler's `try` block throw immediately).
`elevenLabsOpen` is the ws library's `'open'` event: it fires exactly once per
socket, at the moment the CONNECTING socket completes its handshake.
`twilioClose`/`elevenLabsClose` are the respective `'close'` events. -/
inductive SessionEvent where
  | twilioMsg (parsed : Option TwilioEvent)
  | elevenLabsOpen
  | elevenLabsMsg (parsed : Option ElevenLabsEvent)
  | elevenLabsClose
  | twilioClose
deriving DecidableEq

/-- An event sent on the ElevenLabs connection. -/
inductive ElSend where
  | conversationInitiation (prompt firstMessage : String)
  | userAudioChunk (payload : String)
  | pong (eventId : String)
deriving DecidableEq

/-- A frame sent back on the Twilio connection. -/
inductive TwSend where
  | media (streamSid : String) (payload : String)
  | clear (streamSid : String)
deriving DecidableEq

/-- Externally visible effects of one handler invocation.
`setupElevenLabs` marks the start of the asynchronous ElevenLabs connection
setup; `gradeAndPublish` marks the (asynchronous, fire-and-forget)
`analyzeConversation(callSid, conversationHistory, customParameters).catch(...)`
call; `closeElevenLabs` marks `elevenLabsWs.close()`. -/
inductive Action where
  | sendElevenLabs (msg : ElSend)
  | sendTwilio (msg : TwSend)
  | setupElevenLabs (scenarioId : Option String)
  | gradeAndPublish (callSid : Option String) (history : List Turn)
      (parameters : Option CustomParameters)
  | closeElevenLabs
deriving DecidableEq

/-- One step of the session: deliver one event to the corresponding handler,
returning the updated closure state and the sends/effects it performed, in
program order.  Each branch is a direct transcription of the corresponding
`case` of the source handlers; `media` re-encoding through
`Buffer.from(..., 'base64').toString('base64')` is modelled as the identity on
the payload. -/
def step (s : SessionState) (e : SessionEvent) : SessionState × List Action :=
  match e with
  | .twilioMsg none => (s, [])
  | .twilioMsg (some tev) =>
    match tev with
    | .start sid csid params =>
      ({ s with
          streamSid := some sid
          callSid := some csid
          customParameters := params
          conversationHistory := s.conversationHistory ++
            [⟨.system, strOr (params.bind CustomParameters.prompt) "Default prompt"⟩,
             ⟨.assistant, strOr (params.bind CustomParameters.first_message) "Default message"⟩]
          elevenLabsWs := some .connecting },
       [.setupElevenLabs (params.bind CustomParameters.scenarioId)])
    | .media payload =>
      match s.elevenLabsWs with
      | some .opened => (s, [.sendElevenLabs (.userAudioChunk payload)])
      | _ => (s, [])
    | .stop =>
      let gradeActs : List Action :=
        if s.conversationHistory.length > 0 then
          [.gradeAndPublish s.callSid s.conversationHistory s.customParameters]
        else []
      match s.elevenLabsWs with
      | some .opened =>
        ({ s with elevenLabsWs := some .closed }, gradeActs ++ [.closeElevenLabs])
      | _ => (s, gradeActs)
    | .other _ => (s, [])
  | .elevenLabsOpen =>
    match s.elevenLabsWs with
    | some .connecting =>
      ({ s with elevenLabsWs := some .opened },
       [.sendElevenLabs (.conversationInitiation
          (strOr (s.customParameters.bind CustomParameters.prompt) "")
          (strOr (s.customParameters.bind CustomParameters.first_message)
            "Hello, I need help."))])
    | _ => (s, [])
  | .elevenLabsMsg none =>
    (s, [])
  | .elevenLabsMsg (some eev) =>
    match s.elevenLabsWs with
    | none => (s, [])
    | some _ =>
      match eev with
      | .conversationInitiationMetadata => (s, [])
      | .audio chunk audioBase64 =>
        match s.streamSid with
        | some sid =>
          if strTruthy chunk then (s, [.sendTwilio (.media sid (chunk.getD ""))])
          else if strTruthy audioBase64 then
            (s, [.sendTwilio (.media sid (audioBase64.getD ""))])
          else (s, [])
        | none => (s, [])
      | .interruption =>
        match s.streamSid with
        | some sid => (s, [.sendTwilio (.clear sid)])
        | none => (s, [])
      | .ping eventId =>
        if strTruthy eventId then (s, [.sendElevenLabs (.pong (eventId.getD ""))])
        else (s, [])
      | .agentResponse text =>
        if strTruthy text then
          ({ s with conversationHistory :=
              s.conversationHistory ++ [⟨.assistant, text.getD ""⟩] }, [])
        else (s, [])
      | .userTranscript text =>
        if strTruthy text then
          ({ s with conversationHistory :=
              s.conversationHistory ++ [⟨.user, text.getD ""⟩] }, [])
        else (s, [])
      | .other _ => (s, [])
  | .elevenLabsClose =>
    match s.elevenLabsWs with
    | some _ => ({ s with elevenLabsWs := some .closed }, [])
    | none => (s, [])
  | .twilioClose =>
    match s.elevenLabsWs with
    | some .opened => ({ s with elevenLabsWs := some .closed }, [.closeElevenLabs])
    | _ => (s, [])

/-- Deliver a sequence of events, concatenating the actions in order. -/
def runSession (s : SessionState) : List SessionEvent → SessionState × List Action
  | [] => (s, [])
  | e :: es =>
    let r₁ := step s e
    let r₂ := runSession r₁.1 es
    (r₂.1, r₁.2 ++ r₂.2)

/-- Whether an action is the triggering of a grading attempt. -/
def isGrading : Action → Bool
  | .gradeAndPublish _ _ _ => true
  | _ => false

/-- Number of grading attempts among a list of actions. -/
def countGrading (l : List Action) : Nat :=
  (l.filter isGrading).length

/-- Whether an action is the conversation-initiation send. -/
def isInitiationSend : Action → Bool
  | .sendElevenLabs (.conversationInitiation _ _) => true
  | _ => false

/-- Whether an action forwards a telephony audio frame to the voice AI. -/
def isAudioForward : Action → Bool
  | .sendElevenLabs (.userAudioChunk _) => true
  | _ => false

/-- Number of conversation-initiation sends among a list of actions. -/
def countInitiation (l : List Action) : Nat :=
  (l.filter isInitiationSend).length

/-- Scanning the action list left to right: no audio chunk is forwarded
before the first conversation-initiation send. -/
def noAudioBeforeInit : List Action → Bool
  | [] => true
  | a :: rest =>
    if isInitiationSend a then true
    else if isAudioForward a then false
    else noAudioBeforeInit rest

/-- Whether a session event is a Twilio `start` event. -/
def isStartEv : SessionEvent → Bool
  | .twilioMsg (some (.start _ _ _)) => true
  | _ => false

/-- A list of actions containing neither an initiation send nor an audio
forward. -/
def actionsInert (l : List Action) : Bool :=
  l.all (fun a => !(isInitiationSend a) && !(isAudioForward a))

/-!  Grading pipeline (`analyzeConversation`, outbound.js lines 394–660).
The conversation history only feeds the text of the grading prompt, and the
grading service's reply is an input here, so the OpenAI exchange is abstracted
into a `GradingResponse` argument: either the call threw, or it returned text
whose `JSON.parse` outcome is given. -/

/-- Outcome of the `openai.chat.completions.create` call combined with the
subsequent `JSON.parse(analysisText)`:
`ok parsed` — the call returned text, `parsed` being the parse result
(`none` = `JSON.parse` threw, i.e. the text was not valid JSON);
`err` — the upstream call itself threw (network/auth error). -/
inductive GradingResponse where
  | ok (parsed : Option JsonVal)
  | err

/-- Observable outcome of one `analyzeConversation` run: the JSON body POSTed
to the frontend `/api/analysis` endpoint (the Result Publisher), if any, and
whether an error escaped the function (rejecting its promise, which the call
site swallows with `.catch(console.error)`).  Delivery failures of the POST
itself are caught and logged by the source and do not affect either field. -/
structure AnalysisRun where
  published : Option JsonVal
  crashed : Bool

/-- `parsedScenarioId` (lines 396–401): `Number(raw)` on the
`parameters?.scenarioId` string, `undefined` when absent or not finite. -/
def parseScenarioId (parameters : Option CustomParameters) : Option Int :=
  match parameters.bind CustomParameters.scenarioId with
  | none => none
  | some raw => jsStringToNumber raw

/-- Scenario-name extraction (lines 404–415): substring-match the prompt
against the three known characters, else first sentence of the prompt
truncated to 50 characters, else a placeholder. -/
def scenarioNameOf (parameters : Option CustomParameters) : String :=
  let promptText := strOr (parameters.bind CustomParameters.prompt) ""
  if strIncludes promptText "John Smith" then
    "John Smith - Elderly patient with chest pain"
  else if strIncludes promptText "Sarah Johnson" then
    "Sarah Johnson - Unconscious teenager"
  else if strIncludes promptText "Michael Chen" then
    "Michael Chen - Multi-vehicle collision"
  else
    -- split('.')[0] is the prefix before the first '.', substring(0, 50) its
    -- first 50 characters
    let firstSeg : String := ⟨(promptText.data.takeWhile (fun c => !(c = '.'))).take 50⟩
    if firstSeg = "" then "Unknown scenario" else firstSeg

/-- The fallback analysis object built when `JSON.parse` of the grading reply
fails (lines 537–560).  The spread
`...(parsedScenarioId ? scenarioId-field : nothing)` inserts the field only
when `parsedScenarioId` is truthy. -/
def parseFailureFallback (scenarioName : String) (parsedScenarioId : Option Int) :
    JsonVal :=
  .obj ([("scenario", .str scenarioName)]
    ++ (if intTruthy parsedScenarioId then
          [("scenarioId", .num (parsedScenarioId.getD 0))]
        else [])
    ++ [("overall_rating", .obj [("score", .num 5),
          ("summary", .str "Analysis parsing failed - using fallback data")]),
        ("strengths", .arr [.str "Unable to parse analysis"]),
        ("areas_for_improvement", .arr [.str "System error in analysis processing"]),
        ("information_handling", .obj [("gathered_correctly", .arr []),
          ("missed_or_incorrect", .arr [])]),
        ("action_assessment", .obj [("appropriate_actions", .arr []),
          ("inappropriate_actions", .arr [])]),
        ("efficiency", .obj [("response_time_rating", .num 5),
          ("comments", .str "Unable to assess due to parsing error")]),
        ("final_recommendation",
          .str "Please review the raw conversation transcript as automated analysis failed."),
        ("pass_fail", .str "FAIL")])

/-- The `failedAnalysis` object the outer catch block (lines 619–642) tries
to build, as a function of the values of `scenarioName` and
`parsedScenarioId` it would read.  A `scenarioId` property whose value is
`undefined` is omitted by `JSON.stringify`. -/
def failedAnalysisObj (scenarioName : String) (parsedScenarioId : Option Int) :
    JsonVal :=
  .obj ([("scenario", .str (if scenarioName = "" then "Unknown" else scenarioName))]
    ++ (match parsedScenarioId with
        | some n => [("scenarioId", JsonVal.num n)]
        | none => [])
    ++ [("overall_rating", .obj [("score", .num 0),
          ("summary", .str "Analysis could not be completed - OpenAI API error")]),
        ("strengths", .arr [.str "Call was completed successfully"]),
        ("areas_for_improvement", .arr [.str "Analysis unavailable - please check OpenAI API key"]),
        ("information_handling", .obj [("gathered_correctly", .arr []),
          ("missed_or_incorrect", .arr [])]),
        ("action_assessment", .obj [("appropriate_actions", .arr []),
          ("inappropriate_actions", .arr [])]),
        ("efficiency", .obj [("response_time_rating", .num 0),
          ("comments", .str "Unable to assess - analysis failed")]),
        ("final_recommendation",
          .str "Call completed but analysis failed. Please configure a valid OpenAI API key in outbound/.env to enable call analysis."),
        ("pass_fail", .str "FAIL")])

/-- The outer catch block of `analyzeConversation`, parameterised by what the
identifiers `scenarioName` and `parsedScenarioId` resolve to there.  In the
source both are declared with `let`/`const` INSIDE the `try` block, so inside
the catch block neither is in scope: evaluating `scenarioName` on line 620
throws a `ReferenceError` before `failedAnalysis` is built.  An out-of-scope
identifier is modelled as `none`. -/
def analyzeCatchBlock (scenarioNameInScope : Option String)
    (parsedScenarioIdInScope : Option (Option Int)) : Except String JsonVal :=
  match scenarioNameInScope, parsedScenarioIdInScope with
  | some sn, some psid => .ok (failedAnalysisObj sn psid)
  | _, _ => .error "ReferenceError: scenarioName is not defined"

set_option linter.unusedVariables false in
/-- `analyzeConversation(callSid, conversationHistory, parameters)` with the
grading exchange abstracted into `grading`.  The `conversationHistory`
argument only shapes the prompt text sent upstream (and the locally saved
file), which the abstraction subsumes.  On the success path the parsed
analysis (or the parse-failure fallback) gets `scenarioId` force-set when
`parsedScenarioId` is truthy and the value is a non-null object, and is then
POSTed to the Result Publisher.  On the thrown path the catch block is
evaluated with `scenarioName`/`parsedScenarioId` out of scope. -/
def analyzeConversation (conversationHistory : List Turn)
    (parameters : Option CustomParameters) (grading : GradingResponse) :
    AnalysisRun :=
  match grading with
  | .err =>
    match analyzeCatchBlock none none with
    | .ok failed => { published := some failed, crashed := false }
    | .error _ => { published := none, crashed := true }
  | .ok parsed =>
    let parsedScenarioId := parseScenarioId parameters
    let scenarioName := scenarioNameOf parameters
    let analysisData : JsonVal :=
      match parsed with
      | some j => j
      | none => parseFailureFallback scenarioName parsedScenarioId
    let analysisData :=
      if intTruthy parsedScenarioId && jsObjectTruthy analysisData then
        setField analysisData "scenarioId" (.num (parsedScenarioId.getD 0))
      else analysisData
    { published := some analysisData, crashed := false }

/-!  ## Theorems -/

/-- Claim C7: for every scenario identifier, the Agent Selector returns the
configured default agent identifier when the identifier is absent/empty (after
trimming) or has no configured per-scenario mapping, and the mapped (trimmed)
identifier when a mapping is configured.  The function is a total Lean
function, hence pure and never failing. -/
theorem agent_selector_contract (env : String → Option String) (defaultAgentId : String) :
    (∀ scenarioId : Option String, jsTrim (strOr scenarioId "") = "" →
      getAgentIdForScenario env defaultAgentId scenarioId = defaultAgentId) ∧
    (∀ s : String, jsTrim s ≠ "" → configuredAgentFor env (jsTrim s) = none →
      getAgentIdForScenario env defaultAgentId (some s) = defaultAgentId) ∧
    (∀ (s m : String), jsTrim s ≠ "" → configuredAgentFor env (jsTrim s) = some m →
      getAgentIdForScenario env defaultAgentId (some s) = m) := by
  refine ⟨fun scenarioId h => ?_, fun s hs h => ?_, fun s m hs h => ?_⟩
  · simp [getAgentIdForScenario, h]
  · have hko : strOr (some s) "" = s := by
      by_cases h0 : s = ""
      · subst h0; exact absurd rfl hs
      · simp [strOr, h0]
    simp only [getAgentIdForScenario, hko, if_neg hs]
    unfold configuredAgentFor at h
    rcases henv : env ("ELEVENLABS_AGENT_ID_" ++ jsTrim s) with _ | v
    · rfl
    · rw [henv] at h
      have h' : (if jsTrim v = "" then (none : Option String) else some (jsTrim v)) = none := h
      show (if jsTrim v = "" then defaultAgentId else jsTrim v) = defaultAgentId
      by_cases hv : jsTrim v = ""
      · rw [if_pos hv]
      · rw [if_neg hv] at h'
        exact Option.noConfusion h'
  · have hko : strOr (some s) "" = s := by
      by_cases h0 : s = ""
      · subst h0; exact absurd rfl hs
      · simp [strOr, h0]
    simp only [getAgentIdForScenario, hko, if_neg hs]
    unfold configuredAgentFor at h
    rcases henv : env ("ELEVENLABS_AGENT_ID_" ++ jsTrim s) with _ | v
    · rw [henv] at h
      exact Option.noConfusion h
    · rw [henv] at h
      have h' : (if jsTrim v = "" then (none : Option String) else some (jsTrim v)) = some m := h
      show (if jsTrim v = "" then defaultAgentId else jsTrim v) = m
      by_cases hv : jsTrim v = ""
      · rw [if_pos hv] at h'
        exact Option.noConfusion h'
      · rw [if_neg hv] at h'
        rw [if_neg hv]
        exact Option.some.inj h'

/-- Witness for `agent_selector_contract`: a configuration mapping scenario
`"2"` to `" agent2 "`; identifier absent → default, unmapped `"9"` → default,
mapped `"2"` → trimmed mapped value. -/
theorem agent_selector_contract_witness :
    getAgentIdForScenario
      (fun k => if k = "ELEVENLABS_AGENT_ID_2" then some " agent2 " else none)
      "defaultAgent" none = "defaultAgent" ∧
    getAgentIdForScenario
      (fun k => if k = "ELEVENLABS_AGENT_ID_2" then some " agent2 " else none)
      "defaultAgent" (some "9") = "defaultAgent" ∧
    getAgentIdForScenario
      (fun k => if k = "ELEVENLABS_AGENT_ID_2" then some " agent2 " else none)
      "defaultAgent" (some "2") = "agent2" :=
  ⟨(agent_selector_contract _ _).1 none (by decide),
   (agent_selector_contract _ _).2.1 "9" (by decide) (by decide),
   (agent_selector_contract _ _).2.2 "2" "agent2" (by decide) (by decide)⟩

/-- Claim C8: `POST /outbound-call` answers 400 (with no external call
attempted) when `number` is missing; 200 with
success/message/call-identifier body when telephony call creation succeeds;
500 with the fixed error body and a detail message when the provider errors.
The spec's `callId` is the provider-assigned call identifier, which the wire
body names `callSid`. -/
theorem outbound_call_route_responses :
    (∀ (req : OutboundCallRequest) (tw : TwilioCreate), req.number = none →
      outboundCallHandler req tw =
        { status := 400
          body := .obj [("error", .str "Phone number is required")]
          externalCallAttempted := false }) ∧
    (∀ (req : OutboundCallRequest) (sid : String), strTruthy req.number = true →
      outboundCallHandler req (.created sid) =
        { status := 200
          body := .obj [("success", .bool true), ("message", .str "Call initiated"),
                        ("callSid", .str sid)]
          externalCallAttempted := true }) ∧
    (∀ (req : OutboundCallRequest) (message : Option String), strTruthy req.number = true →
      outboundCallHandler req (.failed message) =
        { status := 500
          body := .obj [("success", .bool false), ("error", .str "Failed to initiate call"),
                        ("detail", .str (strOr message "Unknown error"))]
          externalCallAttempted := true }) := by
  refine ⟨fun req tw h => ?_, fun req sid h => ?_, fun req message h => ?_⟩
  · simp [outboundCallHandler, h, strTruthy]
  · simp [outboundCallHandler, h]
  · simp [outboundCallHandler, h]

/-- Witness for `outbound_call_route_responses` at concrete requests. -/
theorem outbound_call_route_responses_witness :
    (outboundCallHandler
      { number := none, prompt := some "p", first_message := some "f", scenarioId := some "1" }
      (.created "CA1")).status = 400 ∧
    (outboundCallHandler
      { number := some "+447700900123", prompt := some "p", first_message := some "f",
        scenarioId := some "1" } (.created "CA1")).status = 200 ∧
    (outboundCallHandler
      { number := some "+447700900123", prompt := some "p", first_message := some "f",
        scenarioId := some "1" } (.failed (some "boom"))).status = 500 :=
  ⟨by rw [outbound_call_route_responses.1 _ (.created "CA1") rfl],
   by rw [outbound_call_route_responses.2.1 _ "CA1" (by decide)],
   by rw [outbound_call_route_responses.2.2 _ (some "boom") (by decide)]⟩

/-- Claim C9: both websocket message handlers are total — `step` is a total
function — and a message that is not valid JSON, or whose event/message type
is unrecognized, leaves the session state unchanged, performs no sends, and
leaves the processing of all subsequent messages exactly as it would have
been without it. -/
theorem ws_handlers_total_on_garbage :
    (∀ s : SessionState, step s (.twilioMsg none) = (s, [])) ∧
    (∀ (s : SessionState) (t : String), step s (.twilioMsg (some (.other t))) = (s, [])) ∧
    (∀ s : SessionState, step s (.elevenLabsMsg none) = (s, [])) ∧
    (∀ (s : SessionState) (t : String), step s (.elevenLabsMsg (some (.other t))) = (s, [])) ∧
    (∀ (s : SessionState) (es : List SessionEvent),
      runSession s (.twilioMsg none :: es) = runSession s es) ∧
    (∀ (s : SessionState) (es : List SessionEvent) (t : String),
      runSession s (.elevenLabsMsg (some (.other t)) :: es) = runSession s es) := by
  have h4 : ∀ (s : SessionState) (t : String),
      step s (.elevenLabsMsg (some (.other t))) = (s, []) := by
    intro s t
    simp only [step]
    rcases s.elevenLabsWs with _ | w <;> rfl
  refine ⟨fun s => rfl, fun s t => rfl, fun s => rfl, h4, fun s es => ?_, fun s es t => ?_⟩
  · simp [runSession, step]
  · simp [runSession, h4]

/-- Claim C5: frame translation drops rather than fails or buffers.  A Twilio
media frame arriving while the ElevenLabs connection is not open (not yet
created, still connecting, or closed) is dropped: the state is unchanged and
nothing is sent or queued.  An ElevenLabs audio event arriving while no
stream identifier is known is likewise dropped.  `step` is a total function,
so neither frame can crash the bridge. -/
theorem bridge_drops_unroutable_frames :
    (∀ (s : SessionState) (payload : String), s.elevenLabsWs ≠ some WsState.opened →
      step s (.twilioMsg (some (.media payload))) = (s, [])) ∧
    (∀ (s : SessionState) (chunk audioBase64 : Option String), s.streamSid = none →
      step s (.elevenLabsMsg (some (.audio chunk audioBase64))) = (s, [])) := by
  constructor
  · intro s payload h
    rcases hw : s.elevenLabsWs with _ | w
    · simp [step, hw]
    · cases w
      · simp [step, hw]
      · exact absurd hw h
      · simp [step, hw]
  · intro s chunk audioBase64 h
    rcases hw : s.elevenLabsWs with _ | w
    · simp [step, hw]
    · simp [step, hw, h]

/-- Witness for `bridge_drops_unroutable_frames`: a session whose ElevenLabs
connection is still connecting drops a media frame; a session with no
stream id drops an ElevenLabs audio event. -/
theorem bridge_drops_unroutable_frames_witness :
    step
      { streamSid := some "MZ1", callSid := some "CA1", customParameters := none,
        conversationHistory := [], elevenLabsWs := some WsState.connecting }
      (.twilioMsg (some (.media "AAAA"))) =
      ({ streamSid := some "MZ1", callSid := some "CA1", customParameters := none,
         conversationHistory := [], elevenLabsWs := some WsState.connecting }, []) ∧
    step
      { streamSid := none, callSid := none, customParameters := none,
        conversationHistory := [], elevenLabsWs := some WsState.opened }
      (.elevenLabsMsg (some (.audio (some "QUJD") none))) =
      ({ streamSid := none, callSid := none, customParameters := none,
         conversationHistory := [], elevenLabsWs := some WsState.opened }, []) :=
  ⟨bridge_drops_unroutable_frames.1 _ "AAAA" (by decide),
   bridge_drops_unroutable_frames.2 _ (some "QUJD") none rfl⟩

/-- Claim C2 (code bug): when the grading call itself throws, the outer catch
block of `analyzeConversation` reads `scenarioName` and `parsedScenarioId`,
which are declared inside the try block and are not in scope there; the
resulting ReferenceError aborts the catch block, so no fallback Analysis
Result is built or delivered to the Result Publisher — the error escapes as a
rejected promise (swallowed by `.catch(console.error)` at the call site). -/
theorem grading_failure_publishes_nothing (history : List Turn)
    (parameters : Option CustomParameters) :
    (analyzeConversation history parameters .err).published = none ∧
    (analyzeConversation history parameters .err).crashed = true :=
  ⟨rfl, rfl⟩

/-- Counterexample to claim C1: the `stop` case has no idempotence guard —
`conversationHistory` is never cleared and no flag is set — so a session that
receives a start event followed by two stop events for the same stream
triggers two grading attempts, not one. -/
theorem duplicate_stop_regrades_cx :
    countGrading (runSession initialSession
      [SessionEvent.twilioMsg (some (TwilioEvent.start "MZ1" "CA1"
          (some { prompt := some "p", first_message := some "f", scenarioId := some "1" }))),
       SessionEvent.twilioMsg (some TwilioEvent.stop),
       SessionEvent.twilioMsg (some TwilioEvent.stop)]).2 = 2 ∧
    countGrading (runSession initialSession
      [SessionEvent.twilioMsg (some (TwilioEvent.start "MZ1" "CA1"
          (some { prompt := some "p", first_message := some "f", scenarioId := some "1" }))),
       SessionEvent.twilioMsg (some TwilioEvent.stop),
       SessionEvent.twilioMsg (some TwilioEvent.stop)]).2 ≠ 1 := by
  constructor
  · decide
  · decide

/-- Claim C1 as amended: delivering a stop event while the transcript is
non-empty triggers exactly one grading attempt (hence one Result Publisher
call when grading completes), and no other event triggers any; but the
handling is not idempotent — every further stop event re-triggers grading,
as `duplicate_stop_regrades_cx` shows. -/
theorem stop_grading_per_event (s : SessionState) (e : SessionEvent) :
    countGrading (step s e).2 =
      if e = SessionEvent.twilioMsg (some TwilioEvent.stop) then
        (if s.conversationHistory.length > 0 then 1 else 0)
      else 0 := by
  cases e with
  | twilioMsg p =>
    cases p with
    | none => simp [step, countGrading]
    | some tev =>
      cases tev with
      | start sid csid params => simp [step, countGrading, isGrading]
      | media payload =>
        rcases hw : s.elevenLabsWs with _ | w
        · simp [step, hw, countGrading]
        · cases w <;> simp [step, hw, countGrading, isGrading]
      | stop =>
        rcases hw : s.elevenLabsWs with _ | w
        · by_cases hh : s.conversationHistory.length > 0 <;>
            simp [step, hw, hh, countGrading, isGrading]
        · cases w <;> by_cases hh : s.conversationHistory.length > 0 <;>
            simp [step, hw, hh, countGrading, isGrading]
      | other t => simp [step, countGrading]
  | elevenLabsOpen =>
    rcases hw : s.elevenLabsWs with _ | w
    · simp [step, hw, countGrading]
    · cases w <;> simp [step, hw, countGrading, isGrading]
  | elevenLabsMsg p =>
    cases p with
    | none => simp [step, countGrading]
    | some eev =>
      rcases hw : s.elevenLabsWs with _ | w
      · simp [step, hw, countGrading]
      · cases eev with
        | conversationInitiationMetadata => simp [step, hw, countGrading]
        | audio chunk audioBase64 =>
          rcases hs : s.streamSid with _ | sid
          · simp [step, hw, hs, countGrading]
          · by_cases hc : strTruthy chunk = true
            · simp [step, hw, hs, hc, countGrading, isGrading]
            · by_cases hb : strTruthy audioBase64 = true <;>
                simp [step, hw, hs, hc, hb, countGrading, isGrading]
        | interruption =>
          rcases hs : s.streamSid with _ | sid <;>
            simp [step, hw, hs, countGrading, isGrading]
        | ping eventId =>
          by_cases he : strTruthy eventId = true <;>
            simp [step, hw, he, countGrading, isGrading]
        | agentResponse text =>
          by_cases ht : strTruthy text = true <;>
            simp [step, hw, ht, countGrading]
        | userTranscript text =>
          by_cases ht : strTruthy text = true <;>
            simp [step, hw, ht, countGrading]
        | other t => simp [step, hw, countGrading]
  | elevenLabsClose =>
    rcases hw : s.elevenLabsWs with _ | w <;> simp [step, hw, countGrading]
  | twilioClose =>
    rcases hw : s.elevenLabsWs with _ | w
    · simp [step, hw, countGrading]
    · cases w <;> simp [step, hw, countGrading, isGrading]

/-- If the ElevenLabs connection has not been created, every event other than
a `start` leaves the just-accepted session exactly as it was, with no
effects: no handler branch fires. -/
theorem step_initial_of_not_start (e : SessionEvent) (h : isStartEv e = false) :
    step initialSession e = (initialSession, []) := by
  cases e with
  | twilioMsg p =>
    cases p with
    | none => rfl
    | some tev =>
      cases tev with
      | start sid csid params => simp [isStartEv] at h
      | media payload => rfl
      | stop => rfl
      | other t => rfl
  | elevenLabsOpen => rfl
  | elevenLabsMsg p =>
    cases p with
    | none => rfl
    | some eev => rfl
  | elevenLabsClose => rfl
  | twilioClose => rfl

/-- A trace containing no `start` event leaves the session in its initial
state and performs no sends or effects at all. -/
theorem runSession_initial_of_no_start (es : List SessionEvent)
    (h : ∀ e ∈ es, isStartEv e = false) :
    runSession initialSession es = (initialSession, []) := by
  induction es with
  | nil => rfl
  | cons e es ih =>
    have he := h e (List.mem_cons_self e es)
    have hes : ∀ x ∈ es, isStartEv x = false := fun x hx => h x (List.mem_cons_of_mem e hx)
    simp [runSession, step_initial_of_not_start e he, ih hes]

/-- Claim C10: a stop event (or any trace of events) on a connection that
never processed a `start` event finds an empty transcript and triggers no
grading attempt, hence publishes no result. -/
theorem stop_without_start_no_grading (es : List SessionEvent)
    (h : ∀ e ∈ es, isStartEv e = false) :
    countGrading (runSession initialSession es).2 = 0 := by
  rw [runSession_initial_of_no_start es h]
  rfl

/-- Witness for `stop_without_start_no_grading`: a stop (preceded by garbage
and a media frame) with no start delivered triggers no grading. -/
theorem stop_without_start_no_grading_witness :
    (∀ e ∈ [SessionEvent.twilioMsg none,
            SessionEvent.twilioMsg (some (TwilioEvent.media "AAAA")),
            SessionEvent.twilioMsg (some TwilioEvent.stop)], isStartEv e = false) ∧
    countGrading (runSession initialSession
      [SessionEvent.twilioMsg none,
       SessionEvent.twilioMsg (some (TwilioEvent.media "AAAA")),
       SessionEvent.twilioMsg (some TwilioEvent.stop)]).2 = 0 :=
  ⟨by decide, stop_without_start_no_grading _ (by decide)⟩

/-- After `setFieldIn fields k v`, looking `k` up yields `v`. -/
theorem lookup_setFieldIn (fields : List (String × JsonVal)) (k : String) (v : JsonVal) :
    (setFieldIn fields k v).lookup k = some v := by
  induction fields with
  | nil => simp [setFieldIn, List.lookup]
  | cons kv rest ih =>
    obtain ⟨k₀, v₀⟩ := kv
    by_cases hk : k₀ = k
    · simp [setFieldIn, hk, List.lookup]
    · have hne : (k == k₀) = false := by
        simp [beq_eq_false_iff_ne]
        exact fun hc => hk hc.symm
      simp [setFieldIn, hk, List.lookup, hne, ih]

/-- Counterexample to claim C3: for a start-call request whose `scenarioId`
is the opaque string `"abc"` (not a finite number, so `parsedScenarioId` is
`undefined` and the force-set is skipped), two runs differing only in the
grading model's output text publish results whose `scenarioId` is whatever
the model wrote — `42` in one run, `7` in the other. -/
theorem scenarioId_not_preserved_cx :
    lookupField (((analyzeConversation []
        (some { prompt := some "p", first_message := some "f", scenarioId := some "abc" })
        (.ok (some (.obj [("scenarioId", .num 42)])))).published).getD .null) "scenarioId"
      = some (.num 42) ∧
    lookupField (((analyzeConversation []
        (some { prompt := some "p", first_message := some "f", scenarioId := some "abc" })
        (.ok (some (.obj [("scenarioId", .num 7)])))).published).getD .null) "scenarioId"
      = some (.num 7) ∧
    some (JsonVal.num 42) ≠ some (JsonVal.num 7) := by
  refine ⟨rfl, rfl, fun hc => ?_⟩
  injection hc with hc'
  injection hc' with hc''
  exact absurd hc'' (by decide)

/-- Claim C3 as amended: whenever the request's `scenarioId` string parses
(via JS `Number`) to a finite non-zero number `n`, the result handed to the
Result Publisher carries `scenarioId = n` for every grading response that is
a JSON object, and also on the parse-failure fallback path — the grading
model's output cannot alter the field.  (When the request's `scenarioId` is
absent, non-numeric, or `0`, the force-set is skipped and a `scenarioId`
field produced by the grading model survives, as
`scenarioId_not_preserved_cx` shows; a grading response that is valid JSON
but not an object also escapes the force-set.) -/
theorem scenarioId_force_set_amended (history : List Turn) (p : CustomParameters)
    (n : Int) (hn : parseScenarioId (some p) = some n) (hn0 : n ≠ 0) :
    (∀ fields : List (String × JsonVal),
      lookupField (((analyzeConversation history (some p)
          (.ok (some (.obj fields)))).published).getD .null) "scenarioId"
        = some (.num n)) ∧
    lookupField (((analyzeConversation history (some p)
        (.ok none)).published).getD .null) "scenarioId" = some (.num n) := by
  constructor
  · intro fields
    simp [analyzeConversation, hn, intTruthy, hn0, jsObjectTruthy, setField, lookupField,
      lookup_setFieldIn]
  · simp [analyzeConversation, hn, intTruthy, hn0, parseFailureFallback, jsObjectTruthy,
      setField, lookupField, lookup_setFieldIn]

/-- Witness for `scenarioId_force_set_amended`: request `scenarioId = "1"`,
grading output claiming `scenarioId = 99` — the published value is `1`. -/
theorem scenarioId_force_set_amended_witness :
    parseScenarioId (some { prompt := some "p", first_message := some "f",
                            scenarioId := some "1" }) = some 1 ∧ (1 : Int) ≠ 0 ∧
    lookupField (((analyzeConversation []
        (some { prompt := some "p", first_message := some "f", scenarioId := some "1" })
        (.ok (some (.obj [("scenarioId", .num 99)])))).published).getD .null) "scenarioId"
      = some (.num 1) :=
  ⟨by decide, by decide,
   (scenarioId_force_set_amended [] _ 1 (by decide) (by decide)).1
     [("scenarioId", .num 99)]⟩

/-- Running a concatenated trace runs the second part from the first part's
final state and concatenates the actions. -/
theorem runSession_append (s : SessionState) (l₁ l₂ : List SessionEvent) :
    runSession s (l₁ ++ l₂) =
      ((runSession (runSession s l₁).1 l₂).1,
        (runSession s l₁).2 ++ (runSession (runSession s l₁).1 l₂).2) := by
  induction l₁ generalizing s with
  | nil => simp [runSession]
  | cons e es ih => simp [runSession, ih, List.append_assoc]

/-- Every handler branch only ever appends to `conversationHistory`. -/
theorem step_history_extends (s : SessionState) (e : SessionEvent) :
    ∃ t, (step s e).1.conversationHistory = s.conversationHistory ++ t := by
  cases e with
  | twilioMsg p =>
    rcases p with _ | tev
    · exact ⟨[], by simp [step]⟩
    · cases tev with
      | start sid csid params => exact ⟨_, rfl⟩
      | media payload =>
        refine ⟨[], ?_⟩
        rcases hw : s.elevenLabsWs with _ | w
        · simp [step, hw]
        · cases w <;> simp [step, hw]
      | stop =>
        refine ⟨[], ?_⟩
        rcases hw : s.elevenLabsWs with _ | w
        · simp [step, hw]
        · cases w <;> simp [step, hw]
      | other t => exact ⟨[], by simp [step]⟩
  | elevenLabsOpen =>
    refine ⟨[], ?_⟩
    rcases hw : s.elevenLabsWs with _ | w
    · simp [step, hw]
    · cases w <;> simp [step, hw]
  | elevenLabsMsg p =>
    rcases p with _ | eev
    · exact ⟨[], by simp [step]⟩
    · rcases hw : s.elevenLabsWs with _ | w
      · exact ⟨[], by simp [step, hw]⟩
      · cases eev with
        | conversationInitiationMetadata => exact ⟨[], by simp [step, hw]⟩
        | audio chunk audioBase64 =>
          refine ⟨[], ?_⟩
          rcases hs : s.streamSid with _ | sid
          · simp [step, hw, hs]
          · by_cases hc : strTruthy chunk = true
            · simp [step, hw, hs, hc]
            · by_cases hb : strTruthy audioBase64 = true <;> simp [step, hw, hs, hc, hb]
        | interruption =>
          refine ⟨[], ?_⟩
          rcases hs : s.streamSid with _ | sid <;> simp [step, hw, hs]
        | ping eventId =>
          refine ⟨[], ?_⟩
          by_cases he : strTruthy eventId = true <;> simp [step, hw, he]
        | agentResponse text =>
          by_cases ht : strTruthy text = true
          · exact ⟨[⟨Role.assistant, text.getD ""⟩], by simp [step, hw, ht]⟩
          · exact ⟨[], by simp [step, hw, ht]⟩
        | userTranscript text =>
          by_cases ht : strTruthy text = true
          · exact ⟨[⟨Role.user, text.getD ""⟩], by simp [step, hw, ht]⟩
          · exact ⟨[], by simp [step, hw, ht]⟩
        | other t => exact ⟨[], by simp [step, hw]⟩
  | elevenLabsClose =>
    refine ⟨[], ?_⟩
    rcases hw : s.elevenLabsWs with _ | w <;> simp [step, hw]
  | twilioClose =>
    refine ⟨[], ?_⟩
    rcases hw : s.elevenLabsWs with _ | w
    · simp [step, hw]
    · cases w <;> simp [step, hw]

/-- Over any trace, `conversationHistory` only grows by appending. -/
theorem runSession_history_extends (s : SessionState) (es : List SessionEvent) :
    ∃ t, (runSession s es).1.conversationHistory = s.conversationHistory ++ t := by
  induction es generalizing s with
  | nil => exact ⟨[], by simp [runSession]⟩
  | cons e es ih =>
    obtain ⟨t₁, h₁⟩ := step_history_extends s e
    obtain ⟨t₂, h₂⟩ := ih (step s e).1
    exact ⟨t₁ ++ t₂, by simp [runSession, h₂, h₁, List.append_assoc]⟩

/-- Counterexample to claim C4: a stream-start event whose character prompt
is the empty string is accepted by `POST /outbound-call` and flows through
the TwiML parameters, but the session seeds the first turn with the literal
`"Default prompt"` (and the second with `"Default message"`), not with the
character prompt — so the first two turns are not (narration-context,
character prompt), (ai-caller, first utterance) as the claim states. -/
theorem transcript_default_seed_cx :
    ((runSession initialSession
        [SessionEvent.twilioMsg (some (TwilioEvent.start "MZ1" "CA1"
          (some { prompt := some "", first_message := some "", scenarioId := some "1" })))]
      ).1.conversationHistory.get? 0 = some ⟨Role.system, "Default prompt"⟩) ∧
    ((runSession initialSession
        [SessionEvent.twilioMsg (some (TwilioEvent.start "MZ1" "CA1"
          (some { prompt := some "", first_message := some "", scenarioId := some "1" })))]
      ).1.conversationHistory.get? 1 = some ⟨Role.assistant, "Default message"⟩) ∧
    (⟨Role.system, "Default prompt"⟩ : Turn) ≠ ⟨Role.system, ""⟩ ∧
    (⟨Role.assistant, "Default message"⟩ : Turn) ≠ ⟨Role.assistant, ""⟩ := by
  refine ⟨by decide, by decide, by decide, by decide⟩

/-- Claim C4 as amended: for every session that processed a stream-start
event, the transcript's first turn has the narration-context (`system`) role
and its second the ai-caller (`assistant`) role; their contents are the
start event's character prompt and first utterance when those parameters are
present and non-empty, and the literals `"Default prompt"` /
`"Default message"` otherwise.  This holds no matter what other events
precede the start (as long as none is itself a start) or how many turns are
appended afterwards. -/
theorem transcript_first_two_turns_amended
    (pre post : List SessionEvent) (sid csid : String) (popt : Option CustomParameters)
    (hpre : ∀ e ∈ pre, isStartEv e = false) :
    ((runSession initialSession
        (pre ++ SessionEvent.twilioMsg (some (TwilioEvent.start sid csid popt)) :: post)
      ).1.conversationHistory.get? 0
        = some ⟨Role.system, strOr (popt.bind CustomParameters.prompt) "Default prompt"⟩) ∧
    ((runSession initialSession
        (pre ++ SessionEvent.twilioMsg (some (TwilioEvent.start sid csid popt)) :: post)
      ).1.conversationHistory.get? 1
        = some ⟨Role.assistant,
            strOr (popt.bind CustomParameters.first_message) "Default message"⟩) := by
  have hpre' := runSession_initial_of_no_start pre hpre
  have hpre1 : (runSession initialSession pre).1 = initialSession := by rw [hpre']
  have hstate : (runSession initialSession
      (pre ++ SessionEvent.twilioMsg (some (TwilioEvent.start sid csid popt)) :: post)).1
      = (runSession initialSession
          (SessionEvent.twilioMsg (some (TwilioEvent.start sid csid popt)) :: post)).1 := by
    rw [runSession_append]
    dsimp only
    rw [hpre1]
  have hstep : (step initialSession
      (SessionEvent.twilioMsg (some (TwilioEvent.start sid csid popt)))).1.conversationHistory
      = [⟨Role.system, strOr (popt.bind CustomParameters.prompt) "Default prompt"⟩,
         ⟨Role.assistant, strOr (popt.bind CustomParameters.first_message) "Default message"⟩] := by
    simp [step, initialSession]
  obtain ⟨t, ht⟩ := runSession_history_extends
    (step initialSession (SessionEvent.twilioMsg (some (TwilioEvent.start sid csid popt)))).1 post
  have hform : (runSession initialSession
      (SessionEvent.twilioMsg (some (TwilioEvent.start sid csid popt)) :: post)
      ).1.conversationHistory
      = ⟨Role.system, strOr (popt.bind CustomParameters.prompt) "Default prompt"⟩ ::
        ⟨Role.assistant, strOr (popt.bind CustomParameters.first_message) "Default message"⟩ :: t := by
    have h1 : (runSession initialSession
        (SessionEvent.twilioMsg (some (TwilioEvent.start sid csid popt)) :: post)).1
        = (runSession (step initialSession
            (SessionEvent.twilioMsg (some (TwilioEvent.start sid csid popt)))).1 post).1 := by
      simp [runSession]
    rw [h1, ht, hstep]
    rfl
  rw [hstate, hform]
  exact ⟨rfl, rfl⟩

/-- Witness for `transcript_first_two_turns_amended`: a concrete session with
a start event carrying a non-empty prompt and first utterance, followed by an
open and two transcript events — the first two turns are exactly the prompt
and first utterance. -/
theorem transcript_first_two_turns_amended_witness :
    (∀ e ∈ ([] : List SessionEvent), isStartEv e = false) ∧
    ((runSession initialSession
        ([] ++ SessionEvent.twilioMsg (some (TwilioEvent.start "MZ1" "CA1"
            (some { prompt := some "You are John", first_message := some "Help me",
                    scenarioId := some "1" }))) ::
          [SessionEvent.elevenLabsOpen,
           SessionEvent.elevenLabsMsg (some (ElevenLabsEvent.agentResponse (some "Hello"))),
           SessionEvent.elevenLabsMsg (some (ElevenLabsEvent.userTranscript (some "Hi")))])
      ).1.conversationHistory.get? 0 = some ⟨Role.system, "You are John"⟩) ∧
    ((runSession initialSession
        ([] ++ SessionEvent.twilioMsg (some (TwilioEvent.start "MZ1" "CA1"
            (some { prompt := some "You are John", first_message := some "Help me",
                    scenarioId := some "1" }))) ::
          [SessionEvent.elevenLabsOpen,
           SessionEvent.elevenLabsMsg (some (ElevenLabsEvent.agentResponse (some "Hello"))),
           SessionEvent.elevenLabsMsg (some (ElevenLabsEvent.userTranscript (some "Hi")))])
      ).1.conversationHistory.get? 1 = some ⟨Role.assistant, "Help me"⟩) :=
  ⟨by decide,
   transcript_first_two_turns_amended [] _ "MZ1" "CA1"
     (some { prompt := some "You are John", first_message := some "Help me",
             scenarioId := some "1" })
     (by decide)⟩

/-- Prepending actions that are neither initiation sends nor audio forwards
does not affect the init-before-audio scan. -/
theorem noAudioBeforeInit_append_inert (l₁ l₂ : List Action) (h : actionsInert l₁ = true) :
    noAudioBeforeInit (l₁ ++ l₂) = noAudioBeforeInit l₂ := by
  induction l₁ with
  | nil => rfl
  | cons a l ih =>
    simp only [actionsInert, List.all_cons, Bool.and_eq_true, Bool.not_eq_true'] at h
    obtain ⟨⟨h1, h2⟩, h3⟩ := h
    simp only [List.cons_append, noAudioBeforeInit, h1, h2, if_false, Bool.false_eq_true]
    exact ih h3

/-- Processing an ElevenLabs message never changes the connection state. -/
theorem step_elMsg_ws (s : SessionState) (eev : ElevenLabsEvent) :
    (step s (.elevenLabsMsg (some eev))).1.elevenLabsWs = s.elevenLabsWs := by
  rcases hw : s.elevenLabsWs with _ | w
  · simp [step, hw]
  · cases eev with
    | conversationInitiationMetadata => simp [step, hw]
    | audio chunk audioBase64 =>
      rcases hs : s.streamSid with _ | sid
      · simp [step, hw, hs]
      · by_cases hc : strTruthy chunk = true
        · simp [step, hw, hs, hc]
        · by_cases hb : strTruthy audioBase64 = true <;> simp [step, hw, hs, hc, hb]
    | interruption => rcases hs : s.streamSid with _ | sid <;> simp [step, hw, hs]
    | ping eventId => by_cases he : strTruthy eventId = true <;> simp [step, hw, he]
    | agentResponse text => by_cases ht : strTruthy text = true <;> simp [step, hw, ht]
    | userTranscript text => by_cases ht : strTruthy text = true <;> simp [step, hw, ht]
    | other t => simp [step, hw]

/-- From a state whose ElevenLabs connection is not open, one step either
keeps the connection non-open while emitting neither initiation nor audio, or
is the `open` transition and emits exactly the single initiation send. -/
theorem step_nonopen_classify (s : SessionState) (e : SessionEvent)
    (h : s.elevenLabsWs ≠ some WsState.opened) :
    ((step s e).1.elevenLabsWs ≠ some WsState.opened ∧ actionsInert (step s e).2 = true) ∨
    (∃ pr fm, (step s e).2 = [Action.sendElevenLabs (ElSend.conversationInitiation pr fm)]) := by
  cases e with
  | twilioMsg p =>
    rcases p with _ | tev
    · exact Or.inl ⟨h, rfl⟩
    · cases tev with
      | start sid csid params => exact Or.inl ⟨by simp [step], rfl⟩
      | media payload =>
        rcases hw : s.elevenLabsWs with _ | w
        · exact Or.inl ⟨by simp [step, hw], by simp [step, hw, actionsInert]⟩
        · cases w
          · exact Or.inl ⟨by simp [step, hw], by simp [step, hw, actionsInert]⟩
          · exact absurd hw h
          · exact Or.inl ⟨by simp [step, hw], by simp [step, hw, actionsInert]⟩
      | stop =>
        rcases hw : s.elevenLabsWs with _ | w
        · refine Or.inl ⟨by simp [step, hw], ?_⟩
          by_cases hh : s.conversationHistory.length > 0 <;>
            simp [step, hw, hh, actionsInert, isInitiationSend, isAudioForward]
        · cases w
          · refine Or.inl ⟨by simp [step, hw], ?_⟩
            by_cases hh : s.conversationHistory.length > 0 <;>
              simp [step, hw, hh, actionsInert, isInitiationSend, isAudioForward]
          · exact absurd hw h
          · refine Or.inl ⟨by simp [step, hw], ?_⟩
            by_cases hh : s.conversationHistory.length > 0 <;>
              simp [step, hw, hh, actionsInert, isInitiationSend, isAudioForward]
      | other t => exact Or.inl ⟨h, rfl⟩
  | elevenLabsOpen =>
    rcases hw : s.elevenLabsWs with _ | w
    · exact Or.inl ⟨by simp [step, hw], by simp [step, hw, actionsInert]⟩
    · cases w
      · exact Or.inr ⟨strOr (s.customParameters.bind CustomParameters.prompt) "",
          strOr (s.customParameters.bind CustomParameters.first_message) "Hello, I need help.",
          by simp [step, hw]⟩
      · exact absurd hw h
      · exact Or.inl ⟨by simp [step, hw], by simp [step, hw, actionsInert]⟩
  | elevenLabsMsg p =>
    rcases p with _ | eev
    · exact Or.inl ⟨h, rfl⟩
    · refine Or.inl ⟨by rw [step_elMsg_ws]; exact h, ?_⟩
      rcases hw : s.elevenLabsWs with _ | w
      · simp [step, hw, actionsInert]
      · cases eev with
        | conversationInitiationMetadata => simp [step, hw, actionsInert]
        | audio chunk audioBase64 =>
          rcases hs : s.streamSid with _ | sid
          · simp [step, hw, hs, actionsInert]
          · by_cases hc : strTruthy chunk = true
            · simp [step, hw, hs, hc, actionsInert, isInitiationSend, isAudioForward]
            · by_cases hb : strTruthy audioBase64 = true <;>
                simp [step, hw, hs, hc, hb, actionsInert, isInitiationSend, isAudioForward]
        | interruption =>
          rcases hs : s.streamSid with _ | sid <;>
            simp [step, hw, hs, actionsInert, isInitiationSend, isAudioForward]
        | ping eventId =>
          by_cases he : strTruthy eventId = true <;>
            simp [step, hw, he, actionsInert, isInitiationSend, isAudioForward]
        | agentResponse text =>
          by_cases ht : strTruthy text = true <;> simp [step, hw, ht, actionsInert]
        | userTranscript text =>
          by_cases ht : strTruthy text = true <;> simp [step, hw, ht, actionsInert]
        | other t => simp [step, hw, actionsInert]
  | elevenLabsClose =>
    rcases hw : s.elevenLabsWs with _ | w
    · exact Or.inl ⟨by simp [step, hw], by simp [step, hw, actionsInert]⟩
    · exact Or.inl ⟨by simp [step, hw], by simp [step, hw, actionsInert]⟩
  | twilioClose =>
    rcases hw : s.elevenLabsWs with _ | w
    · exact Or.inl ⟨by simp [step, hw], by simp [step, hw, actionsInert]⟩
    · cases w
      · exact Or.inl ⟨by simp [step, hw], by simp [step, hw, actionsInert]⟩
      · exact absurd hw h
      · exact Or.inl ⟨by simp [step, hw], by simp [step, hw, actionsInert]⟩

/-- From any state whose ElevenLabs connection is not open, no audio chunk is
forwarded before the first initiation send, over any trace. -/
theorem noAudio_from_nonopen (es : List SessionEvent) :
    ∀ s : SessionState, s.elevenLabsWs ≠ some WsState.opened →
      noAudioBeforeInit (runSession s es).2 = true := by
  induction es with
  | nil => intro s h; rfl
  | cons e es ih =>
    intro s h
    rcases step_nonopen_classify s e h with ⟨h1, h2⟩ | ⟨pr, fm, h3⟩
    · have hx : noAudioBeforeInit ((step s e).2 ++ (runSession (step s e).1 es).2) = true := by
        rw [noAudioBeforeInit_append_inert _ _ h2]
        exact ih (step s e).1 h1
      simpa [runSession] using hx
    · have hx : noAudioBeforeInit ((step s e).2 ++ (runSession (step s e).1 es).2) = true := by
        rw [h3]
        simp [noAudioBeforeInit, isInitiationSend]
      simpa [runSession] using hx

/-- Claim C6: the conversation-initiation event carrying the character prompt
and first utterance (with the source's defaults) is sent exactly when a
connecting ElevenLabs socket fires its `open` event — once per connection
opening, since no other step emits an initiation — and on every trace from
the initial session state no user-audio-chunk is forwarded before the
initiation has been sent. -/
theorem initiation_handshake_order :
    (∀ s : SessionState, s.elevenLabsWs = some WsState.connecting →
      (step s SessionEvent.elevenLabsOpen).2 =
        [Action.sendElevenLabs (ElSend.conversationInitiation
          (strOr (s.customParameters.bind CustomParameters.prompt) "")
          (strOr (s.customParameters.bind CustomParameters.first_message)
            "Hello, I need help."))]) ∧
    (∀ (s : SessionState) (e : SessionEvent),
      countInitiation (step s e).2 = 0 ∨
        (e = SessionEvent.elevenLabsOpen ∧ s.elevenLabsWs = some WsState.connecting ∧
          countInitiation (step s e).2 = 1)) ∧
    (∀ es : List SessionEvent, noAudioBeforeInit (runSession initialSession es).2 = true) := by
  refine ⟨fun s h => by simp [step, h], fun s e => ?_,
    fun es => noAudio_from_nonopen es initialSession (by simp [initialSession])⟩
  have hinert : ∀ l : List Action, actionsInert l = true → countInitiation l = 0 := by
    intro l hl
    induction l with
    | nil => rfl
    | cons a l ih =>
      simp only [actionsInert, List.all_cons, Bool.and_eq_true, Bool.not_eq_true'] at hl
      obtain ⟨⟨h1, _⟩, h3⟩ := hl
      simp only [countInitiation, List.filter, h1]
      exact ih h3
  by_cases hconn : s.elevenLabsWs = some WsState.connecting ∧ e = SessionEvent.elevenLabsOpen
  · obtain ⟨hc, he⟩ := hconn
    subst he
    exact Or.inr ⟨rfl, hc, by simp [step, hc, countInitiation, isInitiationSend]⟩
  · left
    by_cases hop : s.elevenLabsWs = some WsState.opened
    · -- from an open connection: cases over the event; only `open` from a
      -- connecting socket can emit an initiation, and `open` on a non-connecting
      -- socket is a no-op
      cases e with
      | twilioMsg p =>
        rcases p with _ | tev
        · rfl
        · cases tev with
          | start sid csid params => simp [step, countInitiation, isInitiationSend]
          | media payload => simp [step, hop, countInitiation, isInitiationSend]
          | stop =>
            by_cases hh : s.conversationHistory.length > 0 <;>
              simp [step, hop, hh, countInitiation, isInitiationSend]
          | other t => rfl
      | elevenLabsOpen => simp [step, hop, countInitiation]
      | elevenLabsMsg p =>
        rcases p with _ | eev
        · rfl
        · cases eev with
          | conversationInitiationMetadata => simp [step, hop, countInitiation]
          | audio chunk audioBase64 =>
            rcases hs : s.streamSid with _ | sid
            · simp [step, hop, hs, countInitiation]
            · by_cases hc : strTruthy chunk = true
              · simp [step, hop, hs, hc, countInitiation, isInitiationSend]
              · by_cases hb : strTruthy audioBase64 = true <;>
                  simp [step, hop, hs, hc, hb, countInitiation, isInitiationSend]
          | interruption =>
            rcases hs : s.streamSid with _ | sid <;>
              simp [step, hop, hs, countInitiation, isInitiationSend]
          | ping eventId =>
            by_cases he : strTruthy eventId = true <;>
              simp [step, hop, he, countInitiation, isInitiationSend]
          | agentResponse text =>
            by_cases ht : strTruthy text = true <;>
              simp [step, hop, ht, countInitiation]
          | userTranscript text =>
            by_cases ht : strTruthy text = true <;>
              simp [step, hop, ht, countInitiation]
          | other t => simp [step, hop, countInitiation]
      | elevenLabsClose => simp [step, hop, countInitiation]
      | twilioClose => simp [step, hop, countInitiation, isInitiationSend]
    · rcases step_nonopen_classify s e hop with ⟨_, h2⟩ | ⟨pr, fm, h3⟩
      · exact hinert _ h2
      · -- the initiation branch can only be the open step from a connecting
        -- socket, which hconn excludes
        exfalso
        cases e with
        | twilioMsg p =>
          rcases p with _ | tev
          · simp [step] at h3
          · cases tev with
            | start sid csid params => simp [step] at h3
            | media payload =>
              rcases hw : s.elevenLabsWs with _ | w
              · simp [step, hw] at h3
              · cases w
                · simp [step, hw] at h3
                · exact hop hw
                · simp [step, hw] at h3
            | stop =>
              rcases hw : s.elevenLabsWs with _ | w
              · by_cases hh : s.conversationHistory.length > 0 <;> simp [step, hw, hh] at h3
              · cases w
                · by_cases hh : s.conversationHistory.length > 0 <;> simp [step, hw, hh] at h3
                · exact hop hw
                · by_cases hh : s.conversationHistory.length > 0 <;> simp [step, hw, hh] at h3
            | other t => simp [step] at h3
        | elevenLabsOpen =>
          rcases hw : s.elevenLabsWs with _ | w
          · simp [step, hw] at h3
          · cases w
            · exact hconn ⟨hw, rfl⟩
            · exact hop hw
            · simp [step, hw] at h3
        | elevenLabsMsg p =>
          rcases p with _ | eev
          · simp [step] at h3
          · rcases hw : s.elevenLabsWs with _ | w
            · simp [step, hw] at h3
            · cases eev with
              | conversationInitiationMetadata => simp [step, hw] at h3
              | audio chunk audioBase64 =>
                rcases hs : s.streamSid with _ | sid
                · simp [step, hw, hs] at h3
                · by_cases hc : strTruthy chunk = true
                  · simp [step, hw, hs, hc] at h3
                  · by_cases hb : strTruthy audioBase64 = true <;>
                      simp [step, hw, hs, hc, hb] at h3
              | interruption =>
                rcases hs : s.streamSid with _ | sid <;> simp [step, hw, hs] at h3
              | ping eventId =>
                by_cases he : strTruthy eventId = true <;> simp [step, hw, he] at h3
              | agentResponse text =>
                by_cases ht : strTruthy text = true <;> simp [step, hw, ht] at h3
              | userTranscript text =>
                by_cases ht : strTruthy text = true <;> simp [step, hw, ht] at h3
              | other t => simp [step, hw] at h3
        | elevenLabsClose =>
          rcases hw : s.elevenLabsWs with _ | w <;> simp [step, hw] at h3
        | twilioClose =>
          rcases hw : s.elevenLabsWs with _ | w
          · simp [step, hw] at h3
          · cases w
            · simp [step, hw] at h3
            · exact hop hw
            · simp [step, hw] at h3

/-- Witness for `initiation_handshake_order`: a connecting session with
concrete parameters emits exactly the initiation on open; a concrete trace
(start, open, media) never forwards audio before the initiation. -/
theorem initiation_handshake_order_witness :
    (step { streamSid := some "MZ1", callSid := some "CA1",
            customParameters := some { prompt := some "P", first_message := some "F",
                                       scenarioId := some "1" },
            conversationHistory := [], elevenLabsWs := some WsState.connecting }
       SessionEvent.elevenLabsOpen).2 =
      [Action.sendElevenLabs (ElSend.conversationInitiation "P" "F")] ∧
    noAudioBeforeInit (runSession initialSession
      [SessionEvent.twilioMsg (some (TwilioEvent.start "MZ1" "CA1" none)),
       SessionEvent.elevenLabsOpen,
       SessionEvent.twilioMsg (some (TwilioEvent.media "AAAA"))]).2 = true :=
  ⟨initiation_handshake_order.1 _ rfl, initiation_handshake_order.2.2 _⟩

end FirstLine
